import Mathlib

/-!
Shallow embedding of the food e-commerce backend (src/main.py, src/schemas.py).

Python floats are modelled as rational numbers; MongoDB ObjectIds are
modelled as natural numbers drawn from a counter in the store; Python
dicts (documents) are modelled as association lists with first-key-wins
lookup, replace-in-place assignment and append for fresh keys, which is
exactly the observable behaviour of an insertion-ordered dict with
unique keys.
-/

/-- Primitive JSON-like values appearing in stored documents. -/
inductive Prim where
  | pStr : String → Prim
  | pNum : ℚ → Prim
  | pInt : Int → Prim
  | pBool : Bool → Prim
  | pOid : Nat → Prim
  | pNull : Prim
deriving DecidableEq, Repr

/-- A document value: a primitive, or an array of flat sub-documents
(used for the embedded order items). -/
inductive Value where
  | prim : Prim → Value
  | arr : List (List (String × Prim)) → Value
deriving DecidableEq, Repr

/-- A document: Python dict as an insertion-ordered association list. -/
abbrev Doc := List (String × Value)

/-- Python str() rendering of a primitive; for ObjectIds the decimal
rendering stands in for the hex rendering (both are injective). -/
def primStr : Prim → String
  | .pStr s => s
  | .pNum q => toString q
  | .pInt i => toString i
  | .pBool b => toString b
  | .pOid n => toString n
  | .pNull => "None"

/-- Python str() of a document value. -/
def valueStr : Value → String
  | .prim p => primStr p
  | .arr _ => "[...]"

/-- First-match lookup, as for a Python dict key access. -/
def dictLookup (k : String) : Doc → Option Value
  | [] => none
  | a :: tl => if a.1 = k then some a.2 else dictLookup k tl

/-- Python d[k] = v: replace in place where the key exists, append otherwise. -/
def dictSet (k : String) (v : Value) : Doc → Doc
  | [] => [(k, v)]
  | a :: tl => if a.1 = k then (k, v) :: tl else a :: dictSet k v tl

/-- Drop the entry with the given key. -/
def dictRemove (k : String) : Doc → Doc
  | [] => []
  | a :: tl => if a.1 = k then dictRemove k tl else a :: dictRemove k tl

/-- Python d.pop(k): the value at k together with the dict without k,
or none (a KeyError) when k is absent. -/
def dictPop (k : String) (d : Doc) : Option (Value × Doc) :=
  (dictLookup k d).map (fun v => (v, dictRemove k d))

/-- The document store: named collections of documents and a counter
generating fresh ObjectIds. -/
structure Store where
  colls : List (String × List Doc)
  nextId : Nat
deriving DecidableEq, Repr

/-- The documents of a named collection (empty when the collection is absent). -/
def collsGet (name : String) : List (String × List Doc) → List Doc
  | [] => []
  | (n, ds) :: rest => if n = name then ds else collsGet name rest

/-- Replace a named collection, creating it when absent. -/
def collsPut (name : String) (docs : List Doc) : List (String × List Doc) →
    List (String × List Doc)
  | [] => [(name, docs)]
  | (n, ds) :: rest =>
      if n = name then (name, docs) :: rest else (n, ds) :: collsPut name docs rest

def Store.get (s : Store) (name : String) : List Doc :=
  collsGet name s.colls

/-- Modelled from the spec: database.py is not under src/; spec section 4.2
says create(collectionName, entity) inserts a structural representation of
the entity into the named collection and returns a newly generated unique
identifier.  The store assigns the identifier as MongoDB does, by adding an
_id field to the inserted document. -/
def create_document (s : Store) (coll : String) (doc : Doc) : Nat × Store :=
  let newDoc := dictSet "_id" (Value.prim (Prim.pOid s.nextId)) doc
  (s.nextId, ⟨collsPut coll (s.get coll ++ [newDoc]) s.colls, s.nextId + 1⟩)

/-- Modelled from the spec: a document matches a filter when it agrees with
every key of the filter; spec section 4.2 says filtering is exact-match
equality on a single optional field. -/
def matchesFilter (flt : Doc) (d : Doc) : Bool :=
  flt.all (fun kv => dictLookup kv.1 d = some kv.2)

/-- Modelled from the spec: database.py is not under src/; spec section 4.2
says list(collectionName, filter?) returns all matching documents. -/
def get_documents (s : Store) (coll : String) (flt : Doc) : List Doc :=
  (s.get coll).filter (matchesFilter flt)

/-! ### Schemas (src/schemas.py) -/

/-- OrderItem schema: src/schemas.py lines 40-45. -/
structure OrderItem where
  product_id : String
  title : String
  price : ℚ
  quantity : Nat
  image_url : Option String
deriving DecidableEq, Repr

/-- Order schema: src/schemas.py lines 47-59.  status carries whatever
string the payload supplied (default handled by parseOrder). -/
structure Order where
  customer_name : String
  customer_email : String
  customer_address : String
  items : List OrderItem
  subtotal : ℚ
  tax : ℚ
  total : ℚ
  status : String
deriving DecidableEq, Repr

/-- An incoming order payload before pydantic supplies defaults: every
field as sent, status possibly omitted. -/
structure OrderPayload where
  customer_name : String
  customer_email : String
  customer_address : String
  items : List OrderItem
  subtotal : ℚ
  tax : ℚ
  total : ℚ
  status : Option String
deriving DecidableEq, Repr

/-- Pydantic parsing of an order payload: the only defaulted field is
status, which becomes "pending" when omitted (src/schemas.py line 59). -/
def parseOrder (p : OrderPayload) : Order :=
  { customer_name := p.customer_name
    customer_email := p.customer_email
    customer_address := p.customer_address
    items := p.items
    subtotal := p.subtotal
    tax := p.tax
    total := p.total
    status := p.status.getD "pending" }

/-- Modelled from the spec: pydantic EmailStr is a library validator not in
src/; the spec only says "validated email format", approximated as
containing an at sign. -/
def emailOk (s : String) : Bool :=
  s.data.any (fun c => c = Char.ofNat 64)

/-- Structural validation of an order item (src/schemas.py lines 40-45):
price ≥ 0, quantity ≥ 1. -/
def OrderItem.valid (it : OrderItem) : Bool :=
  decide (0 ≤ it.price) && decide (1 ≤ it.quantity)

/-- Structural validation of an order (src/schemas.py lines 47-59):
email format, at least one item, valid items, non-negative amounts.
No constraint mentions status. -/
def Order.structValid (o : Order) : Bool :=
  emailOk o.customer_email && !o.items.isEmpty && o.items.all OrderItem.valid &&
    decide (0 ≤ o.subtotal) && decide (0 ≤ o.tax) && decide (0 ≤ o.total)

/-- Serialization of an order item into a flat sub-document. -/
def OrderItem.toPrimDoc (it : OrderItem) : List (String × Prim) :=
  [("product_id", Prim.pStr it.product_id),
   ("title", Prim.pStr it.title),
   ("price", Prim.pNum it.price),
   ("quantity", Prim.pInt it.quantity),
   ("image_url", it.image_url.elim Prim.pNull Prim.pStr)]

/-- Serialization of an order into a document, field for field. -/
def Order.toDoc (o : Order) : Doc :=
  [("customer_name", Value.prim (Prim.pStr o.customer_name)),
   ("customer_email", Value.prim (Prim.pStr o.customer_email)),
   ("customer_address", Value.prim (Prim.pStr o.customer_address)),
   ("items", Value.arr (o.items.map OrderItem.toPrimDoc)),
   ("subtotal", Value.prim (Prim.pNum o.subtotal)),
   ("tax", Value.prim (Prim.pNum o.tax)),
   ("total", Value.prim (Prim.pNum o.total)),
   ("status", Value.prim (Prim.pStr o.status))]

/-! ### HTTP handlers (src/main.py) -/

/-- A FastAPI HTTPException: status code and detail message. -/
structure HTTPError where
  status_code : Nat
  detail : String
deriving DecidableEq, Repr

/-- The sum on src/main.py line 129. -/
def computed_subtotal (o : Order) : ℚ :=
  (o.items.map (fun it => it.price * (it.quantity : ℚ))).sum

/-- POST /api/orders (src/main.py lines 126-141): validate totals
consistency, then persist; returns the new id or the HTTP error, together
with the resulting store. -/
def create_order (s : Store) (o : Order) : Except HTTPError Nat × Store :=
  if |computed_subtotal o - o.subtotal| > 1/100 then
    (Except.error ⟨400, "Subtotal does not match items total"⟩, s)
  else if |o.subtotal + o.tax - o.total| > 1/100 then
    (Except.error ⟨400, "Total does not match subtotal + tax"⟩, s)
  else
    (Except.ok (create_document s "order" o.toDoc).1, (create_document s "order" o.toDoc).2)

/-- The loop body of the list handlers (src/main.py lines 67-68, 147-148):
d["id"] = str(d.pop("_id")); none models the KeyError when _id is absent. -/
def addIdField (d : Doc) : Option Doc :=
  (dictPop "_id" d).map (fun vd => dictSet "id" (Value.prim (Prim.pStr (valueStr vd.1))) vd.2)

/-- The id-renaming loop of src/main.py lines 67-68 and 147-148 applied to
every fetched document; none models the KeyError escaping the loop. -/
def addIds : List Doc → Option (List Doc)
  | [] => some []
  | d :: rest =>
    match addIdField d, addIds rest with
    | some d2, some rest2 => some (d2 :: rest2)
    | _, _ => none

/-- The filter dict built on src/main.py line 65; a None or empty category
is falsy in Python and yields the empty filter. -/
def productFilterQuery (category : Option String) : Doc :=
  match category with
  | some c => if c = "" then [] else [("category", Value.prim (Prim.pStr c))]
  | none => []

/-- GET /api/products (src/main.py lines 62-71): fetch matching documents
and rename _id to a string id field on each. -/
def list_products (s : Store) (category : Option String) : Except HTTPError (List Doc) :=
  match addIds (get_documents s "product" (productFilterQuery category)) with
  | some out => Except.ok out
  | none => Except.error ⟨500, "KeyError: _id"⟩

/-- GET /api/orders (src/main.py lines 143-151). -/
def list_orders (s : Store) : Except HTTPError (List Doc) :=
  match addIds (get_documents s "order" []) with
  | some out => Except.ok out
  | none => Except.error ⟨500, "KeyError: _id"⟩

/-- The four demo products of src/main.py lines 80-117, field for field. -/
def demoProduct0 : Doc :=
  [("title", Value.prim (Prim.pStr "Margherita Pizza")),
   ("description", Value.prim (Prim.pStr "Classic tomato, mozzarella, basil")),
   ("price", Value.prim (Prim.pNum (999/100))),
   ("category", Value.prim (Prim.pStr "Pizza")),
   ("image_url", Value.prim (Prim.pStr "https://images.unsplash.com/photo-1548365328-9f547fb0953d")),
   ("rating", Value.prim (Prim.pNum (47/10))),
   ("in_stock", Value.prim (Prim.pBool true))]

def demoProduct1 : Doc :=
  [("title", Value.prim (Prim.pStr "Cheeseburger")),
   ("description", Value.prim (Prim.pStr "Juicy beef patty with cheddar")),
   ("price", Value.prim (Prim.pNum (849/100))),
   ("category", Value.prim (Prim.pStr "Burgers")),
   ("image_url", Value.prim (Prim.pStr "https://images.unsplash.com/photo-1550547660-d9450f859349")),
   ("rating", Value.prim (Prim.pNum (45/10))),
   ("in_stock", Value.prim (Prim.pBool true))]

def demoProduct2 : Doc :=
  [("title", Value.prim (Prim.pStr "Caesar Salad")),
   ("description", Value.prim (Prim.pStr "Crisp romaine with parmesan")),
   ("price", Value.prim (Prim.pNum (725/100))),
   ("category", Value.prim (Prim.pStr "Salads")),
   ("image_url", Value.prim (Prim.pStr "https://images.unsplash.com/photo-1568605114967-8130f3a36994")),
   ("rating", Value.prim (Prim.pNum (43/10))),
   ("in_stock", Value.prim (Prim.pBool true))]

def demoProduct3 : Doc :=
  [("title", Value.prim (Prim.pStr "Iced Latte")),
   ("description", Value.prim (Prim.pStr "Chilled espresso with milk")),
   ("price", Value.prim (Prim.pNum (45/10))),
   ("category", Value.prim (Prim.pStr "Drinks")),
   ("image_url", Value.prim (Prim.pStr "https://images.unsplash.com/photo-1541167760496-1628856ab772")),
   ("rating", Value.prim (Prim.pNum (46/10))),
   ("in_stock", Value.prim (Prim.pBool true))]

def demoProducts : List Doc :=
  [demoProduct0, demoProduct1, demoProduct2, demoProduct3]

/-- POST /api/products/seed (src/main.py lines 74-122): a no-op when any
product exists, otherwise insert the demo products; returns the
seeded flag and count together with the resulting store. -/
def seed_products (s : Store) : (Bool × Nat) × Store :=
  let existing := get_documents s "product" []
  if existing.isEmpty then
    let s1 := demoProducts.foldl (fun st p => (create_document st "product" p).2) s
    ((true, demoProducts.length), s1)
  else
    ((false, existing.length), s)

/-- The empty store. -/
def emptyStore : Store := ⟨[], 0⟩

/-! ### Store lemmas -/

lemma collsGet_put_self (name : String) (docs : List Doc) (l : List (String × List Doc)) :
    collsGet name (collsPut name docs l) = docs := by
  induction l with
  | nil => simp [collsGet, collsPut]
  | cons hd tl ih =>
      obtain ⟨n, ds⟩ := hd
      by_cases h : n = name
      · simp [collsPut, collsGet, h]
      · simp [collsPut, collsGet, h, ih]

/-- When both consistency checks pass, create_order persists the serialized
order with a fresh id and returns that id. -/
lemma create_order_ok (s : Store) (o : Order)
    (h1 : |computed_subtotal o - o.subtotal| ≤ 1/100)
    (h2 : |o.subtotal + o.tax - o.total| ≤ 1/100) :
    create_order s o =
      (Except.ok s.nextId,
       ⟨collsPut "order"
          (s.get "order" ++ [dictSet "_id" (Value.prim (Prim.pOid s.nextId)) o.toDoc]) s.colls,
        s.nextId + 1⟩) := by
  unfold create_order
  rw [if_neg (not_lt.mpr h1), if_neg (not_lt.mpr h2)]
  rfl

/-! ### Claim theorems -/

/-- C1: an order whose items violate the subtotal relationship by more
than 0.01 is rejected with the subtotal-mismatch validation error and the
store is unchanged. -/
theorem create_order_subtotal_mismatch (s : Store) (o : Order)
    (h : |computed_subtotal o - o.subtotal| > 1/100) :
    create_order s o = (Except.error ⟨400, "Subtotal does not match items total"⟩, s) := by
  unfold create_order
  rw [if_pos h]

/-- The spec's rejection example: one line of two pizzas at 9.99 with a
declared subtotal of 9.99 instead of 19.98. -/
def mismatchedOrder : Order :=
  { customer_name := "Ada", customer_email := "ada@example.com", customer_address := "1 Main St",
    items := [⟨"p1", "Margherita Pizza", 999/100, 2, none⟩],
    subtotal := 999/100, tax := 0, total := 999/100, status := "pending" }

/-- C1 witness: the spec's rejection example hits the subtotal-mismatch
error and leaves the empty store empty. -/
theorem create_order_subtotal_mismatch_witness :
    create_order emptyStore mismatchedOrder =
      (Except.error ⟨400, "Subtotal does not match items total"⟩, emptyStore) :=
  create_order_subtotal_mismatch emptyStore mismatchedOrder (by
    norm_num [computed_subtotal, mismatchedOrder, abs_of_pos])

/-- C2: an order that passes the subtotal check but violates
subtotal + tax = total by more than 0.01 is rejected with the
total-mismatch validation error and the store is unchanged. -/
theorem create_order_total_mismatch (s : Store) (o : Order)
    (h1 : |computed_subtotal o - o.subtotal| ≤ 1/100)
    (h2 : |o.subtotal + o.tax - o.total| > 1/100) :
    create_order s o = (Except.error ⟨400, "Total does not match subtotal + tax"⟩, s) := by
  unfold create_order
  rw [if_neg (not_lt.mpr h1), if_pos h2]

/-- An order with a correct subtotal and a total far from subtotal + tax. -/
def totalMismatchOrder : Order :=
  { customer_name := "Ada", customer_email := "ada@example.com", customer_address := "1 Main St",
    items := [⟨"p3", "Tea", 5, 1, none⟩],
    subtotal := 5, tax := 1, total := 10, status := "pending" }

/-- C2 witness: a concrete order with a consistent subtotal and an
inconsistent total is rejected with the total-mismatch error. -/
theorem create_order_total_mismatch_witness :
    create_order emptyStore totalMismatchOrder =
      (Except.error ⟨400, "Total does not match subtotal + tax"⟩, emptyStore) :=
  create_order_total_mismatch emptyStore totalMismatchOrder
    (by norm_num [computed_subtotal, totalMismatchOrder])
    (by norm_num [totalMismatchOrder, abs_of_neg])

/-- The spec's acceptance example: one pizza at 9.99, tax 0.80, total 10.79. -/
def exampleOrder : Order :=
  { customer_name := "Ada", customer_email := "ada@example.com", customer_address := "1 Main St",
    items := [⟨"p1", "Margherita Pizza", 999/100, 1, none⟩],
    subtotal := 999/100, tax := 80/100, total := 1079/100, status := "pending" }

/-- C4: the spec's acceptance example passes both consistency checks, is
persisted in the order collection, and its fresh id is returned. -/
theorem create_order_example_ok :
    (create_order emptyStore exampleOrder).1 = Except.ok 0 ∧
    (create_order emptyStore exampleOrder).2.get "order" =
      [dictSet "_id" (Value.prim (Prim.pOid 0)) exampleOrder.toDoc] := by
  have h := create_order_ok emptyStore exampleOrder
    (by norm_num [computed_subtotal, exampleOrder])
    (by norm_num [exampleOrder])
  rw [h]
  exact ⟨rfl, by simpa [Store.get] using collsGet_put_self "order" _ _⟩

/-- C10: both consistency checks are strict comparisons against 0.01, so
any order deviating by at most 0.01 (in particular by exactly 0.01) in
each relationship is accepted and persisted. -/
theorem create_order_boundary (s : Store) (o : Order)
    (h1 : |computed_subtotal o - o.subtotal| ≤ 1/100)
    (h2 : |o.subtotal + o.tax - o.total| ≤ 1/100) :
    (create_order s o).1 = Except.ok s.nextId ∧
    (create_order s o).2.get "order" =
      s.get "order" ++ [dictSet "_id" (Value.prim (Prim.pOid s.nextId)) o.toDoc] := by
  rw [create_order_ok s o h1 h2]
  exact ⟨rfl, by simpa [Store.get] using collsGet_put_self "order" _ _⟩

/-- An order deviating by exactly 0.01 in both checked relationships:
items sum to 10.00 against a declared subtotal of 10.01, and
subtotal + tax is 10.01 against a declared total of 10.02. -/
def boundaryOrder : Order :=
  { customer_name := "Ada", customer_email := "ada@example.com", customer_address := "1 Main St",
    items := [⟨"p4", "Combo", 10, 1, none⟩],
    subtotal := 1001/100, tax := 0, total := 1002/100, status := "pending" }

/-- C10 witness: the exact-boundary order is accepted and persisted. -/
theorem create_order_boundary_witness :
    (create_order emptyStore boundaryOrder).1 = Except.ok 0 ∧
    (create_order emptyStore boundaryOrder).2.get "order" =
      emptyStore.get "order" ++ [dictSet "_id" (Value.prim (Prim.pOid 0)) boundaryOrder.toDoc] :=
  create_order_boundary emptyStore boundaryOrder
    (by norm_num [computed_subtotal, boundaryOrder, abs_of_neg])
    (by norm_num [boundaryOrder, abs_of_neg])

/-- C3: any error produced by the create-order checks is an HTTP 400 with
a non-empty human-readable detail, and the subtotal check runs first:
whenever the subtotal relationship is violated, the reported detail is the
subtotal-mismatch message regardless of the total relationship. -/
theorem create_order_business_error (s : Store) (o : Order) (e : HTTPError)
    (h : (create_order s o).1 = Except.error e) :
    e.status_code = 400 ∧ e.detail ≠ "" ∧
      (|computed_subtotal o - o.subtotal| > 1/100 →
        e.detail = "Subtotal does not match items total") := by
  unfold create_order at h
  by_cases h1 : |computed_subtotal o - o.subtotal| > 1/100
  · rw [if_pos h1] at h
    have h2 : Except.error (⟨400, "Subtotal does not match items total"⟩ : HTTPError) =
        Except.error e := h
    injection h2 with h3
    subst h3
    exact ⟨rfl, by decide, fun _ => rfl⟩
  · rw [if_neg h1] at h
    by_cases h2 : |o.subtotal + o.tax - o.total| > 1/100
    · rw [if_pos h2] at h
      have h3 : Except.error (⟨400, "Total does not match subtotal + tax"⟩ : HTTPError) =
          Except.error e := h
      injection h3 with h4
      subst h4
      exact ⟨rfl, by decide, fun hc => absurd hc h1⟩
    · rw [if_neg h2] at h
      exact absurd h (by simp)

/-- An order violating both the subtotal and the total relationship. -/
def bothMismatchOrder : Order :=
  { customer_name := "Ada", customer_email := "ada@example.com", customer_address := "1 Main St",
    items := [⟨"p5", "Gum", 1, 1, none⟩],
    subtotal := 5, tax := 0, total := 100, status := "pending" }

/-- C3 witness: with both relationships violated, the reported error is
the 400 subtotal-mismatch one. -/
theorem create_order_business_error_witness :
    (⟨400, "Subtotal does not match items total"⟩ : HTTPError).status_code = 400 ∧
    (⟨400, "Subtotal does not match items total"⟩ : HTTPError).detail ≠ "" ∧
    (|computed_subtotal bothMismatchOrder - bothMismatchOrder.subtotal| > 1/100 →
      (⟨400, "Subtotal does not match items total"⟩ : HTTPError).detail =
        "Subtotal does not match items total") :=
  create_order_business_error emptyStore bothMismatchOrder _ (by
    unfold create_order
    rw [if_pos (by norm_num [computed_subtotal, bothMismatchOrder, abs_of_neg])])

lemma get_documents_nil (s : Store) (coll : String) :
    get_documents s coll [] = s.get coll := by
  unfold get_documents
  induction s.get coll with
  | nil => rfl
  | cons a tl ih => simp_all [List.filter, matchesFilter]

lemma create_document_snd_get (s : Store) (coll : String) (d : Doc) :
    (create_document s coll d).2.get coll =
      s.get coll ++ [dictSet "_id" (Value.prim (Prim.pOid s.nextId)) d] := by
  simp [create_document, Store.get, collsGet_put_self]

lemma create_document_snd_nextId (s : Store) (coll : String) (d : Doc) :
    (create_document s coll d).2.nextId = s.nextId + 1 := rfl

/-- C5: seeding is a no-op reporting seeded = false when a product exists;
on an empty product collection it inserts exactly the four demo products
and reports seeded = true with count 4. -/
theorem seed_products_spec (s : Store) :
    (s.get "product" ≠ [] → seed_products s = ((false, (s.get "product").length), s)) ∧
    (s.get "product" = [] →
      (seed_products s).1 = (true, 4) ∧
      (seed_products s).2.get "product" =
        [dictSet "_id" (Value.prim (Prim.pOid s.nextId)) demoProduct0,
         dictSet "_id" (Value.prim (Prim.pOid (s.nextId + 1))) demoProduct1,
         dictSet "_id" (Value.prim (Prim.pOid (s.nextId + 2))) demoProduct2,
         dictSet "_id" (Value.prim (Prim.pOid (s.nextId + 3))) demoProduct3]) := by
  constructor
  · intro h
    unfold seed_products
    rw [get_documents_nil]
    rw [if_neg (by simpa [List.isEmpty_iff] using h)]
  · intro h
    unfold seed_products
    rw [get_documents_nil, h]
    refine ⟨rfl, ?_⟩
    simp [demoProducts, create_document_snd_get, create_document_snd_nextId, h, Nat.add_assoc]

/-- C5 witness: seeding the empty store inserts the four demo products
with fresh ids and reports seeded = true, count 4. -/
theorem seed_products_spec_witness :
    (seed_products emptyStore).1 = (true, 4) ∧
    (seed_products emptyStore).2.get "product" =
      [dictSet "_id" (Value.prim (Prim.pOid 0)) demoProduct0,
       dictSet "_id" (Value.prim (Prim.pOid 1)) demoProduct1,
       dictSet "_id" (Value.prim (Prim.pOid 2)) demoProduct2,
       dictSet "_id" (Value.prim (Prim.pOid 3)) demoProduct3] :=
  (seed_products_spec emptyStore).2 rfl

/-! ### Dict lemmas for the id-renaming transformation -/

lemma dictLookup_remove_self (k : String) (d : Doc) :
    dictLookup k (dictRemove k d) = none := by
  induction d with
  | nil => rfl
  | cons a tl ih => by_cases h : a.1 = k <;> simp [dictRemove, h, dictLookup, ih]

lemma dictLookup_remove_ne (k kk : String) (h : k ≠ kk) (d : Doc) :
    dictLookup k (dictRemove kk d) = dictLookup k d := by
  induction d with
  | nil => rfl
  | cons a tl ih =>
      by_cases ha : a.1 = kk
      · have hk : a.1 ≠ k := by rw [ha]; exact Ne.symm h
        simp [dictRemove, dictLookup, ha, hk, Ne.symm h, ih]
      · by_cases hk : a.1 = k <;> simp [dictRemove, dictLookup, ha, hk, h, ih]

lemma dictLookup_none_remove (k kk : String) (d : Doc) (h : dictLookup k d = none) :
    dictLookup k (dictRemove kk d) = none := by
  induction d with
  | nil => rfl
  | cons a tl ih =>
      rw [dictLookup] at h
      by_cases hk : a.1 = k
      · rw [if_pos hk] at h; cases h
      · rw [if_neg hk] at h
        by_cases ha : a.1 = kk <;> simp [dictRemove, ha, dictLookup, hk, ih h]

lemma dictLookup_append_of_none (k : String) (d1 d2 : Doc)
    (h : dictLookup k d1 = none) :
    dictLookup k (d1 ++ d2) = dictLookup k d2 := by
  induction d1 with
  | nil => rfl
  | cons a tl ih =>
      rw [dictLookup] at h
      by_cases hk : a.1 = k
      · rw [if_pos hk] at h; cases h
      · rw [if_neg hk] at h
        simp [List.cons_append, dictLookup, hk, ih h]

lemma dictSet_absent (k : String) (v : Value) (d : Doc)
    (h : dictLookup k d = none) : dictSet k v d = d ++ [(k, v)] := by
  induction d with
  | nil => rfl
  | cons a tl ih =>
      rw [dictLookup] at h
      by_cases hk : a.1 = k
      · rw [if_pos hk] at h; cases h
      · rw [if_neg hk] at h
        simp [dictSet, hk, ih h]

lemma dictLookup_append_single_ne (k kk : String) (v : Value) (d : Doc) (h : kk ≠ k) :
    dictLookup k (d ++ [(kk, v)]) = dictLookup k d := by
  induction d with
  | nil => simp [dictLookup, h]
  | cons a tl ih => by_cases hk : a.1 = k <;> simp [dictLookup, hk, ih]

/-- What d["id"] = str(d.pop("_id")) does to a document without an id
field: removes _id, appends id with the string form, keeps the rest. -/
lemma addIdField_spec (d d' : Doc) (hnoid : dictLookup "id" d = none)
    (h : addIdField d = some d') :
    ∃ v, dictLookup "_id" d = some v ∧
      dictLookup "_id" d' = none ∧
      dictLookup "id" d' = some (Value.prim (Prim.pStr (valueStr v))) ∧
      ∀ k, k ≠ "_id" → k ≠ "id" → dictLookup k d' = dictLookup k d := by
  unfold addIdField dictPop at h
  cases hv : dictLookup "_id" d with
  | none => rw [hv] at h; exact absurd h (by simp)
  | some v =>
      rw [hv] at h
      simp only [Option.map_some', Option.some.injEq] at h
      have hrest : dictLookup "id" (dictRemove "_id" d) = none :=
        dictLookup_none_remove _ _ _ hnoid
      rw [dictSet_absent _ _ _ hrest] at h
      subst h
      refine ⟨v, rfl, ?_, ?_, ?_⟩
      · rw [dictLookup_append_of_none _ _ _ (dictLookup_remove_self _ _)]
        simp [dictLookup]
      · rw [dictLookup_append_of_none _ _ _ hrest]
        simp [dictLookup]
      · intro k hk1 hk2
        rw [dictLookup_append_single_ne k "id" _ _ (Ne.symm hk2)]
        exact dictLookup_remove_ne k "_id" hk1 d

lemma addIds_mem (l out : List Doc) (h : addIds l = some out) (d' : Doc) (hd : d' ∈ out) :
    ∃ d ∈ l, addIdField d = some d' := by
  induction l generalizing out with
  | nil =>
      unfold addIds at h
      injection h with h
      subst h
      cases hd
  | cons a tl ih =>
      unfold addIds at h
      cases ha : addIdField a with
      | none => rw [ha] at h; cases h
      | some d2 =>
          rw [ha] at h
          cases ht : addIds tl with
          | none => rw [ht] at h; cases h
          | some rest2 =>
              rw [ht] at h
              injection h with h
              subst h
              cases hd with
              | head => exact ⟨a, List.mem_cons_self a tl, ha⟩
              | tail _ hd =>
                  obtain ⟨d, hdl, hfd⟩ := ih rest2 ht hd
                  exact ⟨d, List.mem_cons_of_mem a hdl, hfd⟩

lemma addIds_core (s : Store) (coll : String) (flt : Doc) (out : List Doc) (d' : Doc)
    (h : addIds (get_documents s coll flt) = some out)
    (hmem : d' ∈ out)
    (hclean : ∀ d ∈ s.get coll, dictLookup "id" d = none) :
    ∃ d ∈ s.get coll, ∃ v, dictLookup "_id" d = some v ∧
      dictLookup "_id" d' = none ∧
      dictLookup "id" d' = some (Value.prim (Prim.pStr (valueStr v))) ∧
      ∀ k, k ≠ "_id" → k ≠ "id" → dictLookup k d' = dictLookup k d := by
  obtain ⟨d, hdin, hfd⟩ := addIds_mem _ _ h d' hmem
  have hd2 : d ∈ s.get coll := List.mem_of_mem_filter hdin
  obtain ⟨v, h1, h2, h3, h4⟩ := addIdField_spec d d' (hclean d hd2) hfd
  exact ⟨d, hd2, v, h1, h2, h3, h4⟩

/-- C6: every document returned by list-products or list-orders arises
from a stored document by dropping its _id field, appending a plain id
field holding the string form of that identifier, and leaving every other
field unchanged (for stores whose documents carry no prior id field). -/
theorem list_id_transform (s : Store) (cat : Option String) (coll : String)
    (out : List Doc) (d' : Doc)
    (h : (coll = "product" ∧ list_products s cat = Except.ok out) ∨
         (coll = "order" ∧ list_orders s = Except.ok out))
    (hmem : d' ∈ out)
    (hclean : ∀ d ∈ s.get coll, dictLookup "id" d = none) :
    ∃ d ∈ s.get coll, ∃ v, dictLookup "_id" d = some v ∧
      dictLookup "_id" d' = none ∧
      dictLookup "id" d' = some (Value.prim (Prim.pStr (valueStr v))) ∧
      ∀ k, k ≠ "_id" → k ≠ "id" → dictLookup k d' = dictLookup k d := by
  obtain ⟨rfl, hl⟩ | ⟨rfl, hl⟩ := h
  · unfold list_products at hl
    cases hx : addIds (get_documents s "product" (productFilterQuery cat)) with
    | none => rw [hx] at hl; cases hl
    | some o =>
        rw [hx] at hl
        injection hl with hl
        subst hl
        exact addIds_core s "product" _ _ d' hx hmem hclean
  · unfold list_orders at hl
    cases hx : addIds (get_documents s "order" []) with
    | none => rw [hx] at hl; cases hl
    | some o =>
        rw [hx] at hl
        injection hl with hl
        subst hl
        exact addIds_core s "order" _ _ d' hx hmem hclean

/-- A store holding one product document with ObjectId 5. -/
def idStore : Store :=
  ⟨[("product", [[("title", Value.prim (Prim.pStr "Tea")),
                  ("category", Value.prim (Prim.pStr "Drinks")),
                  ("_id", Value.prim (Prim.pOid 5))]])], 6⟩

/-- The document list-products returns for idStore. -/
def idStoreOut : Doc :=
  [("title", Value.prim (Prim.pStr "Tea")),
   ("category", Value.prim (Prim.pStr "Drinks")),
   ("id", Value.prim (Prim.pStr "5"))]

/-- C6 witness: the concrete returned document has its _id removed, an id
string field appended, and the other fields intact. -/
theorem list_id_transform_witness :
    ∃ d ∈ idStore.get "product", ∃ v, dictLookup "_id" d = some v ∧
      dictLookup "_id" idStoreOut = none ∧
      dictLookup "id" idStoreOut = some (Value.prim (Prim.pStr (valueStr v))) ∧
      ∀ k, k ≠ "_id" → k ≠ "id" → dictLookup k idStoreOut = dictLookup k d :=
  list_id_transform idStore none "product" [idStoreOut] idStoreOut
    (Or.inl ⟨rfl, by rfl⟩) (List.Mem.head _) (by decide)

/-- C7: with a non-empty category the product listing runs over exactly
the stored products whose category field equals it, and with no category
it runs over all stored products. -/
theorem list_products_category (s : Store) (c : String) (hc : c ≠ "") :
    list_products s (some c) =
      (match addIds ((s.get "product").filter
          (fun d => dictLookup "category" d = some (Value.prim (Prim.pStr c)))) with
       | some out => Except.ok out
       | none => Except.error ⟨500, "KeyError: _id"⟩) ∧
    list_products s none =
      (match addIds (s.get "product") with
       | some out => Except.ok out
       | none => Except.error ⟨500, "KeyError: _id"⟩) := by
  constructor
  · have harg : get_documents s "product" (productFilterQuery (some c)) =
        (s.get "product").filter
          (fun d => dictLookup "category" d = some (Value.prim (Prim.pStr c))) := by
      have hq : productFilterQuery (some c) = [("category", Value.prim (Prim.pStr c))] := by
        simp [productFilterQuery, hc]
      unfold get_documents
      rw [hq]
      apply List.filter_congr
      intro d _
      simp [matchesFilter]
    unfold list_products
    rw [harg]
  · unfold list_products
    rw [show productFilterQuery none = [] from rfl, get_documents_nil]

/-- A store holding one Pizza product and one Drinks product. -/
def catStore : Store :=
  ⟨[("product",
     [[("title", Value.prim (Prim.pStr "Pie")),
       ("category", Value.prim (Prim.pStr "Pizza")),
       ("_id", Value.prim (Prim.pOid 0))],
      [("title", Value.prim (Prim.pStr "Cola")),
       ("category", Value.prim (Prim.pStr "Drinks")),
       ("_id", Value.prim (Prim.pOid 1))]])], 2⟩

/-- C7 witness: filtering catStore by Pizza selects exactly the products
whose category equals Pizza. -/
theorem list_products_category_witness :
    list_products catStore (some "Pizza") =
      (match addIds ((catStore.get "product").filter
          (fun d => dictLookup "category" d = some (Value.prim (Prim.pStr "Pizza")))) with
       | some out => Except.ok out
       | none => Except.error ⟨500, "KeyError: _id"⟩) ∧
    list_products catStore none =
      (match addIds (catStore.get "product") with
       | some out => Except.ok out
       | none => Except.error ⟨500, "KeyError: _id"⟩) :=
  list_products_category catStore "Pizza" (by decide)

/-- C9: an empty category string is falsy in Python, so listing with the
empty category builds the empty filter and behaves exactly like listing
with no category, returning every stored product. -/
theorem list_products_empty_category (s : Store) :
    list_products s (some "") = list_products s none ∧
    get_documents s "product" (productFilterQuery (some "")) = s.get "product" := by
  exact ⟨rfl, by
    rw [show productFilterQuery (some "") = [] from rfl]
    exact get_documents_nil s "product"⟩

/-- An order whose status lies outside the documented enumeration. -/
def freeStatusOrder : Order :=
  { customer_name := "Bob", customer_email := "bob@example.com", customer_address := "2 Side St",
    items := [⟨"p2", "Tea", 2, 1, none⟩],
    subtotal := 2, tax := 0, total := 2, status := "archived" }

/-- C8 counterexample: the schema does not restrict status to the four
documented values; a structurally valid order with status archived is
accepted and persisted by create-order. -/
theorem order_status_counterexample :
    Order.structValid freeStatusOrder = true ∧
    freeStatusOrder.status ≠ "pending" ∧ freeStatusOrder.status ≠ "confirmed" ∧
    freeStatusOrder.status ≠ "delivered" ∧ freeStatusOrder.status ≠ "cancelled" ∧
    (create_order emptyStore freeStatusOrder).1 = Except.ok 0 := by
  refine ⟨?_, by decide, by decide, by decide, by decide, ?_⟩
  · decide
  · unfold create_order
    rw [if_neg (by norm_num [computed_subtotal, freeStatusOrder]),
        if_neg (by norm_num [freeStatusOrder])]
    rfl

/-- C8 amended: status defaults to pending when the field is omitted, but
the documented enumeration is not enforced: replacing an order's status
with any string changes neither its structural validity nor the result of
the create-order checks. -/
theorem order_status_default (p : OrderPayload) (hp : p.status = none)
    (o : Order) (st : String) :
    (parseOrder p).status = "pending" ∧
    Order.structValid { o with status := st } = Order.structValid o ∧
    (create_order emptyStore { o with status := st }).1 =
      (create_order emptyStore o).1 := by
  refine ⟨by simp [parseOrder, hp], rfl, ?_⟩
  unfold create_order
  have e1 : computed_subtotal { o with status := st } = computed_subtotal o := rfl
  dsimp only
  rw [e1]
  by_cases h1 : |computed_subtotal o - o.subtotal| > 1/100
  · simp only [if_pos h1]
  · simp only [if_neg h1]
    by_cases h2 : |o.subtotal + o.tax - o.total| > 1/100
    · simp only [if_pos h2]
    · simp only [if_neg h2]
      rfl

/-- An order payload that omits the status field. -/
def noStatusPayload : OrderPayload :=
  { customer_name := "Bob", customer_email := "bob@example.com", customer_address := "2 Side St",
    items := [⟨"p2", "Tea", 2, 1, none⟩],
    subtotal := 2, tax := 0, total := 2, status := none }

/-- C8 witness: the omitted status defaults to pending, and swapping a
concrete order's status for archived changes neither validation nor the
create-order outcome. -/
theorem order_status_default_witness :
    (parseOrder noStatusPayload).status = "pending" ∧
    Order.structValid { exampleOrder with status := "archived" } =
      Order.structValid exampleOrder ∧
    (create_order emptyStore { exampleOrder with status := "archived" }).1 =
      (create_order emptyStore exampleOrder).1 :=
  order_status_default noStatusPayload rfl exampleOrder "archived"
